import Mathlib

/-! Formal model of the 3DCity generator (src/generator.py).

Python floats are modelled by exact rationals; `math.cos(math.radians(center_lat))`
is computed once by the math library in the source, so it appears here as the
parameter `cosLat` of the generator state. Network effects are modelled by
passing the outcome of each external request as an explicit argument. -/

/-- State of the `CityGenerator` class (src/generator.py, `__init__`):
the bounding box, the precomputed cosine of the centre latitude, and the
elevation cache (`self.elevation_data`, `self.elevation_grid_size`), which is
`none` until `download_terrain_data` stores it. -/
structure CityGenerator where
  min_lat : ℚ
  max_lat : ℚ
  min_lon : ℚ
  max_lon : ℚ
  cosLat : ℚ
  elevation_data : Option (ℕ → ℕ → ℚ)
  elevation_grid_size : Option ℕ

/-- Derived field `self.center_lat = (min_lat + max_lat) / 2`. -/
def CityGenerator.center_lat (g : CityGenerator) : ℚ := (g.min_lat + g.max_lat) / 2

/-- Derived field `self.center_lon = (min_lon + max_lon) / 2`. -/
def CityGenerator.center_lon (g : CityGenerator) : ℚ := (g.min_lon + g.max_lon) / 2

/-- Source lines 190-201, `lat_lon_to_meters`: local planar projection anchored
at the bbox centre; returns `(x, y)`. -/
def CityGenerator.lat_lon_to_meters (g : CityGenerator) (lat lon : ℚ) : ℚ × ℚ :=
  let lat_diff := lat - g.center_lat
  let lon_diff := lon - g.center_lon
  let y := lat_diff * 111320
  let x := lon_diff * 111320 * g.cosLat
  (x, y)

/-- Source lines 582-586 inside `get_elevation_at_xy`: the inverse projection
from local metres back to geographic degrees. -/
def CityGenerator.meters_to_lat_lon (g : CityGenerator) (x y : ℚ) : ℚ × ℚ :=
  let lat_diff := y / 111320
  let lon_diff := x / (111320 * g.cosLat)
  (g.center_lat + lat_diff, g.center_lon + lon_diff)

/-- Mesh descriptor: vertex list and polygonal faces (vertex index lists),
as handed to `mesh.from_pydata(vertices, [], faces)`. -/
structure Mesh where
  vertices : List (ℚ × ℚ × ℚ)
  faces : List (List ℕ)

/-- Source lines 665-695, `create_building_mesh`: base and top rings are built
from `coords[:-1]` (the final coordinate, the closing duplicate of an OSM
closed way, is dropped); faces are the bottom ring, the reversed top ring, and
one wrapping side quad per base vertex. -/
def create_building_mesh (coords : List (ℚ × ℚ)) (height : ℚ) : Mesh :=
  let base := coords.dropLast
  let bottom := base.map (fun p => (p.1, p.2, (0 : ℚ)))
  let n := bottom.length
  let top := base.map (fun p => (p.1, p.2, height))
  let bottom_face := List.range n
  let top_face := (List.range' n n).reverse
  let side_faces := (List.range n).map (fun i => [i, (i + 1) % n, (i + 1) % n + n, i + n])
  Mesh.mk (bottom ++ top) (bottom_face :: top_face :: side_faces)

/-- Source line 655 in `create_buildings`:
`height = float(tags.get('height', tags.get('building:levels', 3))) * 3`,
with the two tag lookups modelled as already-parsed optional numbers. -/
def building_height (height_tag levels_tag : Option ℚ) : ℚ :=
  (height_tag.getD (levels_tag.getD 3)) * 3

/-- A 4-element coordinate list for a unit square, not closed. -/
def square4 : List (ℚ × ℚ) := [(0, 0), (1, 0), (1, 1), (0, 1)]

/-- A closed 5-element coordinate list for the same square: the last
coordinate repeats the first, as in an OSM closed building way. -/
def closedSquare : List (ℚ × ℚ) := [(0, 0), (1, 0), (1, 1), (0, 1), (0, 0)]

/-- C1 counterexample: a list of n = 4 vertices passed to
`create_building_mesh` does not yield 2n = 8 vertices and n + 2 = 6 faces;
the builder drops the final coordinate, giving 6 vertices and 5 faces. -/
theorem c1_building_counts_counterexample :
    (create_building_mesh square4 (building_height none (some 3))).vertices.length ≠
      2 * square4.length ∧
    (create_building_mesh square4 (building_height none (some 3))).faces.length ≠
      square4.length + 2 ∧
    (create_building_mesh square4 (building_height none (some 3))).vertices.length = 6 ∧
    (create_building_mesh square4 (building_height none (some 3))).faces.length = 5 := by
  refine ⟨?_, ?_, ?_, ?_⟩ <;> decide

/-- C1 amended: `create_building_mesh` drops the last coordinate of the list
it is given, so a list of n coordinates yields 2·(n−1) vertices ((n−1) at z = 0
followed by (n−1) at z = h) and (n−1) + 2 faces; a closed square footprint
(5 coordinates, 4 distinct corners) whose way carries building:levels = 3
yields height 9 m, 8 vertices and 6 faces. -/
theorem c1_building_mesh_counts (coords : List (ℚ × ℚ)) (h : ℚ) :
    (create_building_mesh coords h).vertices.length = 2 * (coords.length - 1) ∧
    (create_building_mesh coords h).faces.length = (coords.length - 1) + 2 ∧
    (create_building_mesh coords h).vertices =
      coords.dropLast.map (fun p => (p.1, p.2, (0 : ℚ))) ++
        coords.dropLast.map (fun p => (p.1, p.2, h)) ∧
    building_height none (some 3) = 9 ∧
    (create_building_mesh closedSquare (building_height none (some 3))).vertices.length = 8 ∧
    (create_building_mesh closedSquare (building_height none (some 3))).faces.length = 6 := by
  refine ⟨?_, ?_, rfl, by norm_num [building_height], by decide, by decide⟩
  · simp [create_building_mesh, List.length_dropLast, Nat.two_mul]
  · simp [create_building_mesh, List.length_dropLast]

/-- Round-trip identity of the two projections, for any anchor with nonzero
centre cosine. -/
theorem meters_roundtrip (g : CityGenerator) (lat lon : ℚ) (hc : g.cosLat ≠ 0) :
    g.meters_to_lat_lon (g.lat_lon_to_meters lat lon).1 (g.lat_lon_to_meters lat lon).2 =
      (lat, lon) := by
  unfold CityGenerator.meters_to_lat_lon CityGenerator.lat_lon_to_meters
  have h1 : (111320 : ℚ) ≠ 0 := by norm_num
  refine Prod.ext ?_ ?_ <;> field_simp <;> ring

/-- C8: composing the projection to local metres with the inverse projection
used by the elevation query recovers `(lat, lon)` exactly, as an algebraic
identity over exact arithmetic, for any point of the bounding box (the centre
cosine being nonzero). -/
theorem c8_projection_roundtrip (g : CityGenerator) (lat lon : ℚ)
    (hc : g.cosLat ≠ 0)
    (hlat1 : g.min_lat ≤ lat) (hlat2 : lat ≤ g.max_lat)
    (hlon1 : g.min_lon ≤ lon) (hlon2 : lon ≤ g.max_lon) :
    g.meters_to_lat_lon (g.lat_lon_to_meters lat lon).1 (g.lat_lon_to_meters lat lon).2 =
      (lat, lon) :=
  meters_roundtrip g lat lon hc

/-- Generator state used for the concrete round-trip instance. -/
def gC8 : CityGenerator := CityGenerator.mk 0 1 0 1 1 none none

theorem c8_projection_roundtrip_witness :
    gC8.meters_to_lat_lon (gC8.lat_lon_to_meters (1/2) (1/4)).1
      (gC8.lat_lon_to_meters (1/2) (1/4)).2 = (1/2, 1/4) :=
  c8_projection_roundtrip gC8 (1/2) (1/4) (by norm_num [gC8])
    (by norm_num [gC8]) (by norm_num [gC8]) (by norm_num [gC8]) (by norm_num [gC8])

/-- Retry configuration set in `__init__` (line 46): `self.max_retries = 3`. -/
def max_retries : ℕ := 3

/-- Retry configuration set in `__init__` (line 47): `self.initial_timeout = 30`.
It only parameterises the timeout handed to the external request call
(`timeout = initial_timeout * backoff_factor ** attempt`, line 114). -/
def initial_timeout : ℚ := 30

/-- Retry configuration set in `__init__` (line 48): `self.backoff_factor = 2`. -/
def backoff_factor : ℚ := 2

/-- Pacing configuration set in `__init__` (line 52): `self.request_delay = 0.2`. -/
def request_delay : ℚ := 1/5

/-- Outcome of one invocation of `request_func`, classified by the exception
handler of `_retry_request` that it triggers: a normal response, a
`Timeout`, a `ConnectionError`, an `HTTPError` with its status code, another
`RequestException`, or an unanticipated exception. -/
inductive AttemptOutcome
  | success
  | timeout
  | connectionFailure
  | httpStatus (status : ℕ)
  | requestFailure
  | unexpectedFailure
deriving DecidableEq

/-- One `time.sleep` call inside `_retry_request`, tagged by its call site:
the pacing delay before the first attempt (line 112), the generic backoff wait
at the top of a retry iteration (line 120), the rate-limit wait in the 429
handler (line 148), or the gateway-timeout wait in the 504 handler (line 164). -/
inductive SleepEvent
  | pacing (seconds : ℚ)
  | genericBackoff (seconds : ℚ)
  | rateLimitBackoff (seconds : ℚ)
  | gatewayBackoff (seconds : ℚ)
deriving DecidableEq

/-- Mirror-level failure retained in `last_error` by `download_osm_data`:
the server exhausted its retries, its JSON failed to parse, or another
exception occurred while processing its response. -/
inductive OsmFailure
  | serverExhausted (server : ℕ)
  | parseFailed (server : ℕ)
  | processFailed (server : ℕ)
deriving DecidableEq

/-- Diagnostic message appended to `self.errors` or `self.warnings` during a
run, one constructor per message template of the source, carrying the data
interpolated into the message. -/
inductive Diag
  | requestTimedOut (attempt : ℕ)
  | requestConnectionError (attempt : ℕ)
  | httpErrorRecorded (status : ℕ) (attempt : ℕ)
  | rateLimitExceeded (attempt : ℕ)
  | requestFailedError (attempt : ℕ)
  | unexpectedError (attempt : ℕ)
  | osmZeroElements
  | osmAllServersFailed (lastError : Option OsmFailure)
  | invalidElevationFormat (i j : ℕ)
  | elevationFailures (failed total : ℕ)
  | allZeroElevation
deriving DecidableEq

/-- Observable trace of one `_retry_request` call: how many times
`request_func` was invoked, the sleeps performed in order, the errors
appended to `self.errors`, and the result (`some i` when the response of
attempt `i` is returned, `none` when the function returns `None`). -/
structure RetryTrace where
  calls : ℕ
  sleeps : List SleepEvent
  errors : List Diag
  result : Option ℕ
deriving DecidableEq

/-- Body of the `for attempt in range(self.max_retries)` loop of
`_retry_request` (source lines 108-182), as a recursion on the remaining
iterations (`fuel` is `max_retries - attempt`). Each iteration sleeps the
pacing delay when `attempt == 0`, sleeps the generic backoff wait
`backoff_factor ** (attempt - 1)` when `attempt > 0`, invokes `request_func`
once, and dispatches on the outcome exactly as the exception handlers do. -/
def retryAux (outcomes : ℕ → AttemptOutcome) :
    ℕ → ℕ → List SleepEvent → List Diag → RetryTrace
  | 0, attempt, sleeps, errors => RetryTrace.mk attempt sleeps errors none
  | fuel + 1, attempt, sleeps, errors =>
    let sleeps := if attempt = 0 then sleeps ++ [SleepEvent.pacing request_delay] else sleeps
    let sleeps :=
      if 0 < attempt then
        sleeps ++ [SleepEvent.genericBackoff (backoff_factor ^ (attempt - 1))]
      else sleeps
    match outcomes attempt with
    | AttemptOutcome.success =>
        RetryTrace.mk (attempt + 1) sleeps errors (some attempt)
    | AttemptOutcome.timeout =>
        retryAux outcomes fuel (attempt + 1) sleeps
          (if attempt = max_retries - 1 then errors ++ [Diag.requestTimedOut attempt] else errors)
    | AttemptOutcome.connectionFailure =>
        retryAux outcomes fuel (attempt + 1) sleeps
          (if attempt = max_retries - 1 then errors ++ [Diag.requestConnectionError attempt]
           else errors)
    | AttemptOutcome.httpStatus status =>
        if status = 429 then
          if attempt < max_retries - 1 then
            retryAux outcomes fuel (attempt + 1)
              (sleeps ++ [SleepEvent.rateLimitBackoff (10 * ((attempt : ℚ) + 1))]) errors
          else
            RetryTrace.mk (attempt + 1) sleeps (errors ++ [Diag.rateLimitExceeded attempt]) none
        else if status < 500 then
          RetryTrace.mk (attempt + 1) sleeps (errors ++ [Diag.httpErrorRecorded status attempt])
            none
        else if status = 504 ∧ attempt < max_retries - 1 then
          retryAux outcomes fuel (attempt + 1)
            (sleeps ++ [SleepEvent.gatewayBackoff (backoff_factor ^ attempt + 5)]) errors
        else
          retryAux outcomes fuel (attempt + 1) sleeps
            (if attempt = max_retries - 1 then errors ++ [Diag.httpErrorRecorded status attempt]
             else errors)
    | AttemptOutcome.requestFailure =>
        retryAux outcomes fuel (attempt + 1) sleeps
          (if attempt = max_retries - 1 then errors ++ [Diag.requestFailedError attempt]
           else errors)
    | AttemptOutcome.unexpectedFailure =>
        RetryTrace.mk (attempt + 1) sleeps (errors ++ [Diag.unexpectedError attempt]) none

/-- Source lines 95-182, `_retry_request`, with the outcome of each attempt
supplied by the environment. -/
def retry_request (outcomes : ℕ → AttemptOutcome) : RetryTrace :=
  retryAux outcomes max_retries 0 [] []

/-- C3: an operation that fails with a retryable transient fault (timeout or
connection failure) on every attempt is invoked exactly `max_retries` = 3
times, after which `_retry_request` returns `None` with exactly one error
recorded. -/
theorem c3_transient_exhaustion (outcomes : ℕ → AttemptOutcome)
    (h : ∀ i, outcomes i = AttemptOutcome.timeout ∨
      outcomes i = AttemptOutcome.connectionFailure) :
    (retry_request outcomes).calls = max_retries ∧
    max_retries = 3 ∧
    (retry_request outcomes).result = none ∧
    (retry_request outcomes).errors.length = 1 := by
  rcases h 0 with h0 | h0 <;> rcases h 1 with h1 | h1 <;> rcases h 2 with h2 | h2 <;>
    simp [retry_request, retryAux, max_retries, h0, h1, h2]

theorem c3_transient_exhaustion_witness :
    (retry_request (fun _ => AttemptOutcome.timeout)).calls = max_retries ∧
    max_retries = 3 ∧
    (retry_request (fun _ => AttemptOutcome.timeout)).result = none ∧
    (retry_request (fun _ => AttemptOutcome.timeout)).errors.length = 1 :=
  c3_transient_exhaustion (fun _ => AttemptOutcome.timeout) (fun _ => Or.inl rfl)

/-- Attempt outcomes for a run whose first attempt is rate limited and whose
second attempt succeeds. -/
def outcomes429 : ℕ → AttemptOutcome :=
  fun i => if i = 0 then AttemptOutcome.httpStatus 429 else AttemptOutcome.success

/-- C4 counterexample: after the HTTP 429 at attempt 0 the trace sleeps
10 s in the rate-limit handler and then additionally the generic backoff wait
of 1 s at the top of the next iteration, so the wait before the next attempt
is not exactly 10 s and a generic-backoff-tier wait is added. -/
theorem c4_rate_limit_counterexample :
    (retry_request outcomes429).sleeps =
      [SleepEvent.pacing request_delay, SleepEvent.rateLimitBackoff 10,
        SleepEvent.genericBackoff 1] ∧
    SleepEvent.genericBackoff 1 ∈ (retry_request outcomes429).sleeps ∧
    (retry_request outcomes429).sleeps ≠
      [SleepEvent.pacing request_delay, SleepEvent.rateLimitBackoff 10] ∧
    (retry_request outcomes429).result = some 1 := by
  refine ⟨?_, ?_, ?_, ?_⟩ <;>
    simp [retry_request, retryAux, outcomes429, max_retries]

/-- C4 amended: a 429 at attempt i with a retry remaining causes a rate-limit
wait of 10·(i+1) seconds followed additionally by the generic backoff wait
`backoff_factor` ^ i at the top of the next iteration (the handler's
`continue` does not skip it); a single 429 followed by success returns the
response on the second of three attempts, and an all-429 run performs the
successive rate-limit waits 10 s then 20 s, each followed by its generic
backoff wait, before returning `None`. -/
theorem c4_rate_limit_waits (outcomes : ℕ → AttemptOutcome)
    (h0 : outcomes 0 = AttemptOutcome.httpStatus 429)
    (h1 : outcomes 1 = AttemptOutcome.success) :
    (retry_request outcomes).result = some 1 ∧
    (retry_request outcomes).calls = 2 ∧
    (retry_request outcomes).calls < max_retries ∧
    (retry_request outcomes).sleeps =
      [SleepEvent.pacing request_delay, SleepEvent.rateLimitBackoff (10 * (0 + 1)),
        SleepEvent.genericBackoff (backoff_factor ^ 0)] ∧
    (∀ outcomes2 : ℕ → AttemptOutcome,
      (∀ i, outcomes2 i = AttemptOutcome.httpStatus 429) →
      (retry_request outcomes2).sleeps =
        [SleepEvent.pacing request_delay, SleepEvent.rateLimitBackoff (10 * (0 + 1)),
          SleepEvent.genericBackoff (backoff_factor ^ 0),
          SleepEvent.rateLimitBackoff (10 * (1 + 1)),
          SleepEvent.genericBackoff (backoff_factor ^ 1)] ∧
      (retry_request outcomes2).result = none) := by
  refine ⟨?_, ?_, ?_, ?_, ?_⟩
  · simp [retry_request, retryAux, max_retries, h0, h1]
  · simp [retry_request, retryAux, max_retries, h0, h1]
  · simp [retry_request, retryAux, max_retries, h0, h1]
  · simp [retry_request, retryAux, max_retries, h0, h1]
  · intro outcomes2 hall
    constructor
    · simp [retry_request, retryAux, max_retries, hall 0, hall 1, hall 2]
    · simp [retry_request, retryAux, max_retries, hall 0, hall 1, hall 2]

theorem c4_rate_limit_waits_witness :
    (retry_request outcomes429).result = some 1 ∧
    (retry_request outcomes429).calls = 2 ∧
    (retry_request (fun _ => AttemptOutcome.httpStatus 429)).result = none :=
  ⟨(c4_rate_limit_waits outcomes429 rfl rfl).1,
   (c4_rate_limit_waits outcomes429 rfl rfl).2.1,
   ((c4_rate_limit_waits outcomes429 rfl rfl).2.2.2.2
      (fun _ => AttemptOutcome.httpStatus 429) (fun _ => rfl)).2⟩

/-- An OSM element of the downloaded `elements` array: a node with its
position and tags, or a way with its ordered node ids and tags. -/
inductive OsmElement
  | node (id : ℤ) (lat lon : ℚ) (tags : List (String × String))
  | way (id : ℤ) (nodeIds : List ℤ) (tags : List (String × String))
deriving DecidableEq

/-- The ordered mirror list `self.overpass_servers` (source lines 56-60). -/
def overpass_servers : List String :=
  ["https://overpass-api.de/api/interpreter",
   "https://overpass.kumi.systems/api/interpreter",
   "https://overpass.openstreetmap.ru/api/interpreter"]

/-- What happens at one mirror, abstracting the `_retry_request` call and the
response processing of `download_osm_data`: the request exhausted its retries
(`response is None`), the JSON failed to parse, another exception occurred
while processing, or the `elements` array was obtained. -/
inductive ServerOutcome
  | requestFailed
  | parseError
  | processError
  | parsed (elements : List OsmElement)

/-- True exactly when a mirror yielded a parsed response. -/
def ServerOutcome.succeeded : ServerOutcome → Bool
  | ServerOutcome.parsed _ => true
  | _ => false

/-- The `for server_index, overpass_url in enumerate(...)` loop of
`download_osm_data` (source lines 227-277) over the remaining server indices,
carrying `last_error`. On a parsed response it returns the elements, warning
when there are zero of them; on a mirror failure it records `last_error` and
advances; when every mirror is exhausted it appends the aggregate warning and
returns the empty element set. The returned diagnostics list holds the
warnings this call appends to `self.warnings`. -/
def osmLoop (outcomes : ℕ → ServerOutcome) :
    List ℕ → Option OsmFailure → List OsmElement × List Diag
  | [], lastError => ([], [Diag.osmAllServersFailed lastError])
  | s :: rest, lastError =>
    match outcomes s with
    | ServerOutcome.parsed elements =>
        if elements.length = 0 then (elements, [Diag.osmZeroElements]) else (elements, [])
    | ServerOutcome.requestFailed =>
        osmLoop outcomes rest (some (OsmFailure.serverExhausted s))
    | ServerOutcome.parseError =>
        osmLoop outcomes rest (some (OsmFailure.parseFailed s))
    | ServerOutcome.processError =>
        osmLoop outcomes rest (some (OsmFailure.processFailed s))

/-- Source lines 203-277, `download_osm_data`: try each mirror of
`overpass_servers` in order. -/
def download_osm_data (outcomes : ℕ → ServerOutcome) : List OsmElement × List Diag :=
  osmLoop outcomes (List.range overpass_servers.length) none

/-- Helper for C6: when every server in the remaining list fails, the loop
returns the empty element set with exactly the aggregate warning. -/
theorem osmLoop_all_fail (outcomes : ℕ → ServerOutcome) (l : List ℕ)
    (lastError : Option OsmFailure)
    (h : ∀ s ∈ l, (outcomes s).succeeded = false) :
    ∃ le, osmLoop outcomes l lastError = ([], [Diag.osmAllServersFailed le]) := by
  induction l generalizing lastError with
  | nil => exact ⟨lastError, rfl⟩
  | cons s rest ih =>
    have hs := h s (by simp)
    have hr : ∀ t ∈ rest, (outcomes t).succeeded = false := fun t ht => h t (by simp [ht])
    cases hso : outcomes s with
    | parsed els => rw [hso] at hs; simp [ServerOutcome.succeeded] at hs
    | requestFailed => simpa [osmLoop, hso] using ih _ hr
    | parseError => simpa [osmLoop, hso] using ih _ hr
    | processError => simpa [osmLoop, hso] using ih _ hr

/-- C6: when every mirror fails (retries exhausted or response unusable), the
vector data fetch returns the empty element set, appends exactly one
aggregate warning naming the failure, and returns normally (the embedding is
total, mirroring that no exception escapes this layer). -/
theorem c6_osm_total_failure (outcomes : ℕ → ServerOutcome)
    (h : ∀ s, s < overpass_servers.length → (outcomes s).succeeded = false) :
    (download_osm_data outcomes).1 = [] ∧
    (download_osm_data outcomes).2.length = 1 ∧
    ∃ le, (download_osm_data outcomes).2 = [Diag.osmAllServersFailed le] := by
  obtain ⟨le, hle⟩ := osmLoop_all_fail outcomes (List.range overpass_servers.length) none
    (fun s hs => h s (List.mem_range.mp hs))
  refine ⟨?_, ?_, ⟨le, ?_⟩⟩ <;> simp [download_osm_data, hle]

theorem c6_osm_total_failure_witness :
    (download_osm_data (fun _ => ServerOutcome.requestFailed)).1 = [] ∧
    (download_osm_data (fun _ => ServerOutcome.requestFailed)).2.length = 1 ∧
    ∃ le, (download_osm_data (fun _ => ServerOutcome.requestFailed)).2 =
      [Diag.osmAllServersFailed le] :=
  c6_osm_total_failure (fun _ => ServerOutcome.requestFailed) (fun _ _ => rfl)

/-- The four optional bbox floats parsed by argparse in
`parse_command_line_args` (each `none` when the flag is absent). -/
structure CliArgs where
  min_lat : Option ℚ
  max_lat : Option ℚ
  min_lon : Option ℚ
  max_lon : Option ℚ
deriving DecidableEq

/-- Python truthiness of an optional float, as used by
`all([args.min_lat, args.max_lat, args.min_lon, args.max_lon])`:
`None` and `0.0` are falsy. -/
def truthy : Option ℚ → Bool
  | none => false
  | some v => if v = 0 then false else true

/-- Source lines 2021-2039, `parse_command_line_args`: when running behind
`--`, parse the four floats and return them only if all four are truthy;
otherwise return `None`. -/
def parse_command_line_args (dashdashPresent : Bool) (args : CliArgs) : Option CliArgs :=
  if dashdashPresent then
    if truthy args.min_lat && truthy args.max_lat && truthy args.min_lon && truthy args.max_lon
    then some args
    else none
  else none

/-- What `main` (source lines 2042-2061) does: start command-line generation
immediately with the parsed bbox, or register the UI panel. -/
inductive MainAction
  | commandLineGenerate (args : CliArgs)
  | registerUi
deriving DecidableEq

/-- Source lines 2042-2061, `main`: command-line mode constructs the
generator and calls `generate()` at once; otherwise UI mode registers the
panel. No bbox-ordering validation occurs on this path. -/
def main_entry (dashdashPresent : Bool) (args : CliArgs) : MainAction :=
  match parse_command_line_args dashdashPresent args with
  | some a => MainAction.commandLineGenerate a
  | none => MainAction.registerUi

/-- Stages run, in order, by `CityGenerator.generate` (source lines
1867-1910). -/
inductive Stage
  | clearScene
  | fetchOsm
  | fetchTerrain
  | buildTerrain
  | buildBuildings
  | buildStreets
  | buildWater
  | buildTrees
  | exportScene
  | printSummary
deriving DecidableEq

/-- The stage order of `generate()`: fetching begins at the second stage with
no validation stage before it. -/
def generate_stage_order : List Stage :=
  [Stage.clearScene, Stage.fetchOsm, Stage.fetchTerrain, Stage.buildTerrain,
   Stage.buildBuildings, Stage.buildStreets, Stage.buildWater, Stage.buildTrees,
   Stage.exportScene, Stage.printSummary]

/-- Return status of the Blender operator `execute`. -/
inductive OpResult
  | CANCELLED
  | FINISHED
deriving DecidableEq

/-- Source lines 1943-1965, `CITYGEN_OT_Generate.execute`: validate
`min_lat < max_lat` and `min_lon < max_lon` before constructing the
generator; on violation report an error and cancel. The boolean records
whether `generator.generate()` was started (exceptions thrown by a started
generation are abstracted away). -/
def citygen_generate_execute (min_lat max_lat min_lon max_lon : ℚ) : OpResult × Bool :=
  if min_lat ≥ max_lat ∨ min_lon ≥ max_lon then (OpResult.CANCELLED, false)
  else (OpResult.FINISHED, true)

/-- Command-line arguments for an inverted bbox (min_lat > max_lat) whose
four values are all nonzero. -/
def invertedCliArgs : CliArgs := CliArgs.mk (some 2) (some 1) (some 3) (some 4)

/-- C5 counterexample: the command-line path performs no bbox-ordering
validation: an inverted bbox (min_lat = 2 > 1 = max_lat) with four nonzero
arguments starts command-line generation, whose stage order begins fetching,
so the invalid input is not rejected before a fetch on this entry path. -/
theorem c5_validation_counterexample :
    main_entry true invertedCliArgs = MainAction.commandLineGenerate invertedCliArgs ∧
    invertedCliArgs.min_lat = some 2 ∧ invertedCliArgs.max_lat = some 1 ∧ ¬((2 : ℚ) < 1) ∧
    Stage.fetchOsm ∈ generate_stage_order := by
  refine ⟨?_, rfl, rfl, by norm_num, by decide⟩
  simp [main_entry, parse_command_line_args, truthy, invertedCliArgs]

/-- C5 amended: only the UI operator path validates the bbox invariant — it
cancels before starting generation whenever `min_lat ≥ max_lat` or
`min_lon ≥ max_lon`; the command-line path starts generation (and hence
fetching) for any four nonzero arguments with no ordering validation. -/
theorem c5_validation_per_path :
    (∀ min_lat max_lat min_lon max_lon : ℚ,
      min_lat ≥ max_lat ∨ min_lon ≥ max_lon →
      citygen_generate_execute min_lat max_lat min_lon max_lon = (OpResult.CANCELLED, false)) ∧
    (∀ a b c d : ℚ, a ≠ 0 → b ≠ 0 → c ≠ 0 → d ≠ 0 →
      main_entry true (CliArgs.mk (some a) (some b) (some c) (some d)) =
        MainAction.commandLineGenerate (CliArgs.mk (some a) (some b) (some c) (some d))) := by
  constructor
  · intro mla mlb mlc mld hv
    simp [citygen_generate_execute, hv]
  · intro a b c d ha hb hc hd
    simp [main_entry, parse_command_line_args, truthy, ha, hb, hc, hd]

theorem c5_validation_per_path_witness :
    citygen_generate_execute 2 1 3 4 = (OpResult.CANCELLED, false) ∧
    main_entry true (CliArgs.mk (some 5) (some 6) (some 7) (some 8)) =
      MainAction.commandLineGenerate (CliArgs.mk (some 5) (some 6) (some 7) (some 8)) :=
  ⟨c5_validation_per_path.1 2 1 3 4 (Or.inl (by norm_num)),
   c5_validation_per_path.2 5 6 7 8 (by norm_num) (by norm_num) (by norm_num) (by norm_num)⟩

/-- C9: when `--` is present and all four bbox flags are supplied but at
least one equals 0.0, the truthiness test treats it as absent:
`parse_command_line_args` returns `None` and `main` falls back to UI mode,
so generation is not triggered. -/
theorem c9_zero_bbox_not_parsed (a b c d : ℚ)
    (h : a = 0 ∨ b = 0 ∨ c = 0 ∨ d = 0) :
    parse_command_line_args true (CliArgs.mk (some a) (some b) (some c) (some d)) = none ∧
    main_entry true (CliArgs.mk (some a) (some b) (some c) (some d)) = MainAction.registerUi := by
  have hp : parse_command_line_args true (CliArgs.mk (some a) (some b) (some c) (some d)) =
      none := by
    rcases h with h | h | h | h <;> simp [parse_command_line_args, truthy, h]
  exact ⟨hp, by simp [main_entry, hp]⟩

theorem c9_zero_bbox_not_parsed_witness :
    parse_command_line_args true (CliArgs.mk (some 0) (some 1) (some 2) (some 3)) = none ∧
    main_entry true (CliArgs.mk (some 0) (some 1) (some 2) (some 3)) = MainAction.registerUi :=
  c9_zero_bbox_not_parsed 0 1 2 3 (Or.inl rfl)

/-- Python `int()` truncation toward zero of an exact rational. -/
def pyint (q : ℚ) : ℤ := if 0 ≤ q then ⌊q⌋ else -⌊-q⌋

/-- Outcome of one `_fetch_elevation_point` call as determined by the
environment: `ok e` when the retried request succeeded and its JSON carried
`results[0].elevation = e`; `failed` when the request exhausted its retries
or the response was unusable. -/
inductive PointResult
  | ok (elevation : ℚ)
  | failed
deriving DecidableEq

/-- Source lines 279-311, `_fetch_elevation_point`: returns
`(i, j, elevation, success)`, with elevation 0 and success `False` on any
failure. -/
def fetch_elevation_point (r : PointResult) (i j : ℕ) : ℕ × ℕ × ℚ × Bool :=
  match r with
  | PointResult.ok e => (i, j, e, true)
  | PointResult.failed => (i, j, 0, false)

/-- Source lines 317-325 of `download_terrain_data`: grid size for 0.5 m
resolution, capped at 100 and at least 20. -/
def terrain_grid_size (g : CityGenerator) : ℕ :=
  let lat_meters := (g.max_lat - g.min_lat) * 111320
  let lon_meters := (g.max_lon - g.min_lon) * 111320 * g.cosLat
  let grid_size_lat := min (pyint (lat_meters / (1/2))) 100
  let grid_size_lon := min (pyint (lon_meters / (1/2))) 100
  (max (max grid_size_lat grid_size_lon) 20).toNat

/-- Sequential counters and warnings carried through the point loop of
`download_terrain_data` (source lines 339-372). -/
structure TerrainLoopState where
  successful : ℕ
  failed : ℕ
  first_failure_logged : Bool
  warnings : List Diag
deriving DecidableEq

/-- One iteration of the point loop: update the counters, and log the
`Invalid elevation data format` warning on the first failure only. -/
def terrain_point_step (pf : ℕ → ℕ → PointResult) (st : TerrainLoopState) (p : ℕ × ℕ) :
    TerrainLoopState :=
  let r := fetch_elevation_point (pf p.1 p.2) p.1 p.2
  if r.2.2.2 then
    TerrainLoopState.mk (st.successful + 1) st.failed st.first_failure_logged st.warnings
  else
    TerrainLoopState.mk st.successful (st.failed + 1) true
      (if st.first_failure_logged then st.warnings
       else st.warnings ++ [Diag.invalidElevationFormat p.1 p.2])

/-- The `(i, j)` traversal order of the nested point loops
(`for i in range(grid_size + 1): for j in range(grid_size + 1)`). -/
def grid_points (gs : ℕ) : List (ℕ × ℕ) :=
  ((List.range (gs + 1)).map (fun i => (List.range (gs + 1)).map (fun j => (i, j)))).join

/-- Result of `download_terrain_data`: the elevation array (zero outside the
`(grid_size+1) × (grid_size+1)` range that the loop fills), the stored
`self.elevation_grid_size`, the warnings appended to `self.warnings`, and the
final counters. -/
structure TerrainResult where
  data : ℕ → ℕ → ℚ
  grid_size : ℕ
  warnings : List Diag
  successful : ℕ
  failed : ℕ

/-- Source lines 313-404, `download_terrain_data`: initialise the array to
zeros, fetch every grid point sequentially (each cell is written exactly once
with the fetched elevation, 0 on failure), then append the failed-points
warning when any point failed and the all-zero warning when
`elevation_data.max() == 0 and elevation_data.min() == 0`. -/
def download_terrain_data (g : CityGenerator) (pf : ℕ → ℕ → PointResult) : TerrainResult :=
  let gs := terrain_grid_size g
  let pts := grid_points gs
  let data : ℕ → ℕ → ℚ := fun i j =>
    if i ≤ gs ∧ j ≤ gs then (fetch_elevation_point (pf i j) i j).2.2.1 else 0
  let st := pts.foldl (terrain_point_step pf) (TerrainLoopState.mk 0 0 false [])
  let warnings1 := st.warnings ++
    (if 0 < st.failed then [Diag.elevationFailures st.failed ((gs + 1) * (gs + 1))] else [])
  let allZero := pts.all (fun p => decide (data p.1 p.2 = 0))
  let warnings2 := warnings1 ++ (if allZero then [Diag.allZeroElevation] else [])
  TerrainResult.mk data gs warnings2 st.successful st.failed

/-- Source lines 390-392: store the downloaded grid on the generator for the
later elevation queries of the street and sidewalk builders. -/
def store_elevation (g : CityGenerator) (r : TerrainResult) : CityGenerator :=
  CityGenerator.mk g.min_lat g.max_lat g.min_lon g.max_lon g.cosLat
    (some r.data) (some r.grid_size)

/-- Source lines 406-430 of `create_terrain` (mesh part): one vertex per grid
sample with `z = elevation * 0.1`, and one quad face per grid cell; `rows`
and `cols` are the numpy shape of the elevation array. -/
def create_terrain (g : CityGenerator) (data : ℕ → ℕ → ℚ) (rows cols : ℕ) : Mesh :=
  let vertices := ((List.range rows).map (fun (i : ℕ) =>
    (List.range cols).map (fun (j : ℕ) =>
      let lat := g.min_lat + ((i : ℚ) / ((rows : ℚ) - 1)) * (g.max_lat - g.min_lat)
      let lon := g.min_lon + ((j : ℚ) / ((cols : ℚ) - 1)) * (g.max_lon - g.min_lon)
      let xy := g.lat_lon_to_meters lat lon
      (xy.1, xy.2, data i j * (1/10))))).join
  let faces := ((List.range (rows - 1)).map (fun i =>
    (List.range (cols - 1)).map (fun j =>
      [i * cols + j, i * cols + j + 1, (i + 1) * cols + j + 1, (i + 1) * cols + j]))).join
  Mesh.mk vertices faces

/-- C7: when every per-point elevation fetch fails, the downloaded grid is
all-zero, at least one warning is appended (in particular the all-zero
warning), and every vertex of the terrain mesh built from the grid has
z = 0. -/
theorem c7_all_failed_elevation (g : CityGenerator) (pf : ℕ → ℕ → PointResult)
    (hfail : ∀ i j, pf i j = PointResult.failed) :
    (∀ i j, (download_terrain_data g pf).data i j = 0) ∧
    1 ≤ (download_terrain_data g pf).warnings.length ∧
    Diag.allZeroElevation ∈ (download_terrain_data g pf).warnings ∧
    ∀ v ∈ (create_terrain g (download_terrain_data g pf).data
        ((download_terrain_data g pf).grid_size + 1)
        ((download_terrain_data g pf).grid_size + 1)).vertices,
      v.2.2 = 0 := by
  have hdata : ∀ i j, (download_terrain_data g pf).data i j = 0 := by
    intro i j
    simp only [download_terrain_data, hfail, fetch_elevation_point]
    split <;> rfl
  have hzero : ∀ q ∈ grid_points (terrain_grid_size g),
      decide ((download_terrain_data g pf).data q.1 q.2 = 0) = true := by
    intro q hq
    simp [hdata]
  have hall : (grid_points (terrain_grid_size g)).all
      (fun p => decide ((download_terrain_data g pf).data p.1 p.2 = 0)) = true :=
    List.all_eq_true.mpr hzero
  have hwarn : Diag.allZeroElevation ∈ (download_terrain_data g pf).warnings := by
    have hall2 : ((grid_points (terrain_grid_size g)).all
        (fun p => decide ((if p.1 ≤ terrain_grid_size g ∧ p.2 ≤ terrain_grid_size g then
          (fetch_elevation_point (pf p.1 p.2) p.1 p.2).2.2.1 else 0) = 0))) = true := by
      refine List.all_eq_true.mpr ?_
      intro q hq
      simp [hfail, fetch_elevation_point]
    simp only [download_terrain_data, hall2, if_true]
    simp
  refine ⟨hdata, ?_, hwarn, ?_⟩
  · exact List.length_pos.mpr (fun he => by simp [he] at hwarn)
  · intro v hv
    simp only [create_terrain, List.mem_join, List.mem_map] at hv
    obtain ⟨row, ⟨i, hi, hrow⟩, hvrow⟩ := hv
    rw [← hrow] at hvrow
    simp only [List.mem_map] at hvrow
    obtain ⟨j, hj, hvj⟩ := hvrow
    rw [← hvj]
    simp [hdata]

/-- Generator state over a tiny bbox (about one metre each way) used for the
all-failures terrain instance; its computed grid size is the minimum, 20. -/
def gTiny : CityGenerator := CityGenerator.mk 0 (1/111320) 0 (1/111320) 1 none none

theorem c7_all_failed_elevation_witness :
    (∀ i j, (download_terrain_data gTiny (fun _ _ => PointResult.failed)).data i j = 0) ∧
    1 ≤ (download_terrain_data gTiny (fun _ _ => PointResult.failed)).warnings.length ∧
    Diag.allZeroElevation ∈
      (download_terrain_data gTiny (fun _ _ => PointResult.failed)).warnings ∧
    ∀ v ∈ (create_terrain gTiny
        (download_terrain_data gTiny (fun _ _ => PointResult.failed)).data
        ((download_terrain_data gTiny (fun _ _ => PointResult.failed)).grid_size + 1)
        ((download_terrain_data gTiny (fun _ _ => PointResult.failed)).grid_size + 1)).vertices,
      v.2.2 = 0 :=
  c7_all_failed_elevation gTiny (fun _ _ => PointResult.failed) (fun _ _ => rfl)

/-- Source lines 568-623, `get_elevation_at_xy`: return 0.0 when no elevation
grid is stored; otherwise inverse-project `(x, y)` to lat/lon, clamp into the
bbox, normalise to fractional grid coordinates, clamp the integer indices to
`[0, grid_size - 1]`, bilinearly interpolate the four corner samples (the
upper indices clamped to `grid_size`), and scale by 0.1. -/
def CityGenerator.get_elevation_at_xy (g : CityGenerator) (x y : ℚ) : ℚ :=
  match g.elevation_data, g.elevation_grid_size with
  | some ed, some gs =>
    let latlon := g.meters_to_lat_lon x y
    let lat := max g.min_lat (min g.max_lat latlon.1)
    let lon := max g.min_lon (min g.max_lon latlon.2)
    let lat_norm := (lat - g.min_lat) / (g.max_lat - g.min_lat)
    let lon_norm := (lon - g.min_lon) / (g.max_lon - g.min_lon)
    let i_float := lat_norm * gs
    let j_float := lon_norm * gs
    let i : ℤ := max 0 (min ((gs : ℤ) - 1) (pyint i_float))
    let j : ℤ := max 0 (min ((gs : ℤ) - 1) (pyint j_float))
    let i_frac := i_float - (i : ℚ)
    let j_frac := j_float - (j : ℚ)
    let e00 := ed i.toNat j.toNat
    let e10 := ed (min (i.toNat + 1) gs) j.toNat
    let e01 := ed i.toNat (min (j.toNat + 1) gs)
    let e11 := ed (min (i.toNat + 1) gs) (min (j.toNat + 1) gs)
    let e0 := e00 * (1 - j_frac) + e01 * j_frac
    let e1 := e10 * (1 - j_frac) + e11 * j_frac
    let elevation := e0 * (1 - i_frac) + e1 * i_frac
    elevation * (1/10)
  | _, _ => 0

/-- C10: before any elevation grid has been stored the query is total and
returns 0.0 for every coordinate, so street and sidewalk builders are safe to
call when the terrain stage was skipped. -/
theorem c10_query_without_grid (g : CityGenerator) (x y : ℚ)
    (h : g.elevation_data = none ∨ g.elevation_grid_size = none) :
    g.get_elevation_at_xy x y = 0 := by
  rcases h with h | h
  · simp [CityGenerator.get_elevation_at_xy, h]
  · cases hd : g.elevation_data <;> simp [CityGenerator.get_elevation_at_xy, h, hd]

theorem c10_query_without_grid_witness :
    gC8.get_elevation_at_xy 12345 (-678) = 0 :=
  c10_query_without_grid gC8 12345 (-678) (Or.inl rfl)

/-- Constant elevation grid storing 10 m everywhere. -/
def edTen : ℕ → ℕ → ℚ := fun _ _ => 10

/-- Generator over the unit bbox with the constant grid `edTen` stored at
grid size 20. -/
def gEx2 : CityGenerator := CityGenerator.mk 0 1 0 1 1 (some edTen) (some 20)

/-- C2 counterexample: `(-55660, -55660)` is exactly grid node (0,0) of
`gEx2` (the projection of lat = 0, lon = 0), whose stored sample is 10, but
the query returns 1 = 10 × 0.1: the query scales by the fixed 0.1 factor and
does not return the stored sample value exactly. -/
theorem c2_grid_node_counterexample :
    gEx2.lat_lon_to_meters 0 0 = (-55660, -55660) ∧
    edTen 0 0 = 10 ∧
    gEx2.get_elevation_at_xy (-55660) (-55660) = 1 ∧
    gEx2.get_elevation_at_xy (-55660) (-55660) ≠ edTen 0 0 := by
  have h1 : gEx2.lat_lon_to_meters 0 0 = (-55660, -55660) := by
    norm_num [CityGenerator.lat_lon_to_meters, CityGenerator.center_lat,
      CityGenerator.center_lon, gEx2]
  have h2 : gEx2.get_elevation_at_xy (-55660) (-55660) = 1 := by
    norm_num [CityGenerator.get_elevation_at_xy, CityGenerator.meters_to_lat_lon,
      CityGenerator.center_lat, CityGenerator.center_lon, gEx2, edTen, pyint]
  refine ⟨h1, rfl, h2, ?_⟩
  rw [h2]
  norm_num [edTen]

/-- Helper for C2: the clamped integer index of a fractional grid coordinate
in `[0, gs]` lies in `[0, gs − 1]` and is within 1 below the coordinate. -/
theorem clamp_axis (gs : ℕ) (q : ℚ) (hgs1 : 1 ≤ gs) (h0 : 0 ≤ q) (h1 : q ≤ gs) :
    0 ≤ max 0 (min ((gs : ℤ) - 1) (pyint q)) ∧
    max 0 (min ((gs : ℤ) - 1) (pyint q)) ≤ (gs : ℤ) - 1 ∧
    ((max 0 (min ((gs : ℤ) - 1) (pyint q)) : ℤ) : ℚ) ≤ q ∧
    q ≤ ((max 0 (min ((gs : ℤ) - 1) (pyint q)) : ℤ) : ℚ) + 1 := by
  have hpy : pyint q = ⌊q⌋ := by simp [pyint, h0]
  have hf0 : 0 ≤ ⌊q⌋ := Int.floor_nonneg.mpr h0
  have hfgs : ⌊q⌋ ≤ (gs : ℤ) := by
    have h := Int.floor_le_floor h1
    simpa using h
  have hgsZ : (1 : ℤ) ≤ (gs : ℤ) := by exact_mod_cast hgs1
  rw [hpy]
  rcases le_or_lt (⌊q⌋) ((gs : ℤ) - 1) with hle | hgt
  · have hmax : max 0 (min ((gs : ℤ) - 1) ⌊q⌋) = ⌊q⌋ := by
      rw [min_eq_right hle]; exact max_eq_right hf0
    rw [hmax]
    refine ⟨hf0, hle, Int.floor_le q, ?_⟩
    have h2 := Int.lt_floor_add_one q
    linarith
  · have hfq : ⌊q⌋ = (gs : ℤ) := le_antisymm hfgs (by omega)
    have hmax : max 0 (min ((gs : ℤ) - 1) ⌊q⌋) = (gs : ℤ) - 1 := by
      rw [min_eq_left (by omega)]; exact max_eq_right (by omega)
    rw [hmax]
    have hq : (gs : ℚ) ≤ q := by
      have h3 := Int.floor_le q
      rw [hfq] at h3
      exact_mod_cast h3
    refine ⟨by omega, le_refl _, ?_, ?_⟩ <;> push_cast <;> linarith

/-- Helper for C2: at the exact integer coordinate `a ≤ gs`, the clamped index
and fraction select the row `a` itself: either the fraction is 0 and the lower
index is `a`, or the fraction is 1 and the (clamped) upper index is `a`. -/
theorem node_axis (gs a : ℕ) (hgs1 : 1 ≤ gs) (ha : a ≤ gs) :
    ∃ t : ℚ, (t = 0 ∨ t = 1) ∧
      (a : ℚ) - ((max 0 (min ((gs : ℤ) - 1) (pyint (a : ℚ))) : ℤ) : ℚ) = t ∧
      (t = 0 → (max 0 (min ((gs : ℤ) - 1) (pyint (a : ℚ)))).toNat = a) ∧
      (t = 1 → min ((max 0 (min ((gs : ℤ) - 1) (pyint (a : ℚ)))).toNat + 1) gs = a) := by
  have hpya : pyint ((a : ℕ) : ℚ) = (a : ℤ) := by
    rw [pyint, if_pos (by positivity)]
    exact_mod_cast Int.floor_natCast a
  rcases Nat.lt_or_ge a gs with hlt | hge
  · have hiZ : max 0 (min ((gs : ℤ) - 1) (pyint (a : ℚ))) = (a : ℤ) := by
      rw [hpya, min_eq_right (by omega)]
      exact max_eq_right (by positivity)
    refine ⟨0, Or.inl rfl, ?_, ?_, ?_⟩
    · rw [hiZ]; push_cast; ring
    · intro _; rw [hiZ]; omega
    · intro h01; exact absurd h01 (by norm_num)
  · have haeq : a = gs := le_antisymm ha hge
    subst haeq
    have hiZ : max 0 (min ((a : ℤ) - 1) (pyint (a : ℚ))) = (a : ℤ) - 1 := by
      rw [hpya, min_eq_left (by omega)]
      exact max_eq_right (by omega)
    refine ⟨1, Or.inr rfl, ?_, ?_, ?_⟩
    · rw [hiZ]; push_cast; ring
    · intro h10; exact absurd h10 (by norm_num)
    · intro _; rw [hiZ]
      have h2 : ((a : ℤ) - 1).toNat + 1 = a := by omega
      rw [h2, min_self]

/-- C2 amended: with a stored grid of size gs ≥ 1 over a valid bbox, the
query at the exact projection of grid node (a, b) returns the stored sample
scaled by the fixed 0.1 factor, and at every point it returns 0.1 times a
convex combination (weights in [0,1], summing to 1 as the product bilinear
weights of two axis fractions) of the four bounding samples chosen by the
code's clamped indices. -/
theorem c2_bilinear_query (g : CityGenerator) (ed : ℕ → ℕ → ℚ) (gs : ℕ)
    (hed : g.elevation_data = some ed) (hgs : g.elevation_grid_size = some gs)
    (hlat : g.min_lat < g.max_lat) (hlon : g.min_lon < g.max_lon)
    (hc : 0 < g.cosLat) (hgs1 : 1 ≤ gs) :
    (∀ a b : ℕ, a ≤ gs → b ≤ gs →
      g.get_elevation_at_xy
        (g.lat_lon_to_meters (g.min_lat + (a : ℚ) * ((g.max_lat - g.min_lat) / (gs : ℚ)))
          (g.min_lon + (b : ℚ) * ((g.max_lon - g.min_lon) / (gs : ℚ)))).1
        (g.lat_lon_to_meters (g.min_lat + (a : ℚ) * ((g.max_lat - g.min_lat) / (gs : ℚ)))
          (g.min_lon + (b : ℚ) * ((g.max_lon - g.min_lon) / (gs : ℚ)))).2 =
      ed a b * (1/10)) ∧
    (∀ x y : ℚ, ∃ i j : ℕ, ∃ wa wb : ℚ,
      i + 1 ≤ gs ∧ j + 1 ≤ gs ∧ 0 ≤ wa ∧ wa ≤ 1 ∧ 0 ≤ wb ∧ wb ≤ 1 ∧
      g.get_elevation_at_xy x y =
        ((ed i j * (1 - wb) + ed i (j + 1) * wb) * (1 - wa) +
          (ed (i + 1) j * (1 - wb) + ed (i + 1) (j + 1) * wb) * wa) * (1/10)) := by
  have hdlat : 0 < g.max_lat - g.min_lat := sub_pos.mpr hlat
  have hdlon : 0 < g.max_lon - g.min_lon := sub_pos.mpr hlon
  have hgsQ : (0 : ℚ) < gs := by exact_mod_cast Nat.lt_of_lt_of_le Nat.zero_lt_one hgs1
  constructor
  · -- exact grid nodes
    intro a b ha hb
    have hnode1 : g.min_lat ≤ g.min_lat + (a : ℚ) * ((g.max_lat - g.min_lat) / (gs : ℚ)) := by
      have : 0 ≤ (a : ℚ) * ((g.max_lat - g.min_lat) / (gs : ℚ)) := by positivity
      linarith
    have hnode2 : g.min_lat + (a : ℚ) * ((g.max_lat - g.min_lat) / (gs : ℚ)) ≤ g.max_lat := by
      have h2 : (a : ℚ) * ((g.max_lat - g.min_lat) / (gs : ℚ)) ≤
          (gs : ℚ) * ((g.max_lat - g.min_lat) / (gs : ℚ)) := by
        have haQ : (a : ℚ) ≤ (gs : ℚ) := by exact_mod_cast ha
        have hpos : 0 ≤ (g.max_lat - g.min_lat) / (gs : ℚ) := by positivity
        exact mul_le_mul_of_nonneg_right haQ hpos
      have h3 : (gs : ℚ) * ((g.max_lat - g.min_lat) / (gs : ℚ)) = g.max_lat - g.min_lat := by
        field_simp
      linarith
    have hnode3 : g.min_lon ≤ g.min_lon + (b : ℚ) * ((g.max_lon - g.min_lon) / (gs : ℚ)) := by
      have : 0 ≤ (b : ℚ) * ((g.max_lon - g.min_lon) / (gs : ℚ)) := by positivity
      linarith
    have hnode4 : g.min_lon + (b : ℚ) * ((g.max_lon - g.min_lon) / (gs : ℚ)) ≤ g.max_lon := by
      have h2 : (b : ℚ) * ((g.max_lon - g.min_lon) / (gs : ℚ)) ≤
          (gs : ℚ) * ((g.max_lon - g.min_lon) / (gs : ℚ)) := by
        have hbQ : (b : ℚ) ≤ (gs : ℚ) := by exact_mod_cast hb
        have hpos : 0 ≤ (g.max_lon - g.min_lon) / (gs : ℚ) := by positivity
        exact mul_le_mul_of_nonneg_right hbQ hpos
      have h3 : (gs : ℚ) * ((g.max_lon - g.min_lon) / (gs : ℚ)) = g.max_lon - g.min_lon := by
        field_simp
      linarith
    have hrt := meters_roundtrip g
      (g.min_lat + (a : ℚ) * ((g.max_lat - g.min_lat) / (gs : ℚ)))
      (g.min_lon + (b : ℚ) * ((g.max_lon - g.min_lon) / (gs : ℚ))) (ne_of_gt hc)
    have hrt1 : (g.meters_to_lat_lon
        (g.lat_lon_to_meters (g.min_lat + (a : ℚ) * ((g.max_lat - g.min_lat) / (gs : ℚ)))
          (g.min_lon + (b : ℚ) * ((g.max_lon - g.min_lon) / (gs : ℚ)))).1
        (g.lat_lon_to_meters (g.min_lat + (a : ℚ) * ((g.max_lat - g.min_lat) / (gs : ℚ)))
          (g.min_lon + (b : ℚ) * ((g.max_lon - g.min_lon) / (gs : ℚ)))).2).1 =
        g.min_lat + (a : ℚ) * ((g.max_lat - g.min_lat) / (gs : ℚ)) := by rw [hrt]
    have hrt2 : (g.meters_to_lat_lon
        (g.lat_lon_to_meters (g.min_lat + (a : ℚ) * ((g.max_lat - g.min_lat) / (gs : ℚ)))
          (g.min_lon + (b : ℚ) * ((g.max_lon - g.min_lon) / (gs : ℚ)))).1
        (g.lat_lon_to_meters (g.min_lat + (a : ℚ) * ((g.max_lat - g.min_lat) / (gs : ℚ)))
          (g.min_lon + (b : ℚ) * ((g.max_lon - g.min_lon) / (gs : ℚ)))).2).2 =
        g.min_lon + (b : ℚ) * ((g.max_lon - g.min_lon) / (gs : ℚ)) := by rw [hrt]
    simp only [CityGenerator.get_elevation_at_xy, hed, hgs, hrt1, hrt2]
    rw [min_eq_right hnode2, max_eq_right hnode1, min_eq_right hnode4, max_eq_right hnode3]
    have hqi : (g.min_lat + (a : ℚ) * ((g.max_lat - g.min_lat) / (gs : ℚ)) - g.min_lat) /
        (g.max_lat - g.min_lat) * (gs : ℚ) = (a : ℚ) := by
      field_simp
      ring
    have hqj : (g.min_lon + (b : ℚ) * ((g.max_lon - g.min_lon) / (gs : ℚ)) - g.min_lon) /
        (g.max_lon - g.min_lon) * (gs : ℚ) = (b : ℚ) := by
      field_simp
      ring
    rw [hqi, hqj]
    obtain ⟨ti, hti01, htieq, hti0, hti1⟩ := node_axis gs a hgs1 ha
    obtain ⟨tj, htj01, htjeq, htj0, htj1⟩ := node_axis gs b hgs1 hb
    rw [htieq, htjeq]
    rcases hti01 with hti | hti <;> rcases htj01 with htj | htj
    · rw [hti0 hti, htj0 htj, hti, htj]; ring
    · rw [hti0 hti, htj1 htj, hti, htj]; ring
    · rw [hti1 hti, htj0 htj, hti, htj]; ring
    · rw [hti1 hti, htj1 htj, hti, htj]; ring
  · -- arbitrary query points
    intro x y
    simp only [CityGenerator.get_elevation_at_xy, hed, hgs]
    set L := max g.min_lat (min g.max_lat (g.meters_to_lat_lon x y).1) with hLdef
    set M := max g.min_lon (min g.max_lon (g.meters_to_lat_lon x y).2) with hMdef
    set qi := (L - g.min_lat) / (g.max_lat - g.min_lat) * (gs : ℚ) with hqidef
    set qj := (M - g.min_lon) / (g.max_lon - g.min_lon) * (gs : ℚ) with hqjdef
    have hL1 : g.min_lat ≤ L := le_max_left _ _
    have hL2 : L ≤ g.max_lat := max_le (le_of_lt hlat) (min_le_left _ _)
    have hM1 : g.min_lon ≤ M := le_max_left _ _
    have hM2 : M ≤ g.max_lon := max_le (le_of_lt hlon) (min_le_left _ _)
    have hqi0 : 0 ≤ qi := by
      rw [hqidef]
      have : 0 ≤ (L - g.min_lat) / (g.max_lat - g.min_lat) := by
        apply div_nonneg (by linarith) (le_of_lt hdlat)
      positivity
    have hqi1 : qi ≤ (gs : ℚ) := by
      rw [hqidef]
      have hd1 : (L - g.min_lat) / (g.max_lat - g.min_lat) ≤ 1 :=
        (div_le_one hdlat).mpr (by linarith)
      calc (L - g.min_lat) / (g.max_lat - g.min_lat) * (gs : ℚ)
          ≤ 1 * (gs : ℚ) := mul_le_mul_of_nonneg_right hd1 (le_of_lt hgsQ)
        _ = (gs : ℚ) := one_mul _
    have hqj0 : 0 ≤ qj := by
      rw [hqjdef]
      have : 0 ≤ (M - g.min_lon) / (g.max_lon - g.min_lon) := by
        apply div_nonneg (by linarith) (le_of_lt hdlon)
      positivity
    have hqj1 : qj ≤ (gs : ℚ) := by
      rw [hqjdef]
      have hd1 : (M - g.min_lon) / (g.max_lon - g.min_lon) ≤ 1 :=
        (div_le_one hdlon).mpr (by linarith)
      calc (M - g.min_lon) / (g.max_lon - g.min_lon) * (gs : ℚ)
          ≤ 1 * (gs : ℚ) := mul_le_mul_of_nonneg_right hd1 (le_of_lt hgsQ)
        _ = (gs : ℚ) := one_mul _
    obtain ⟨hi0, hile, hiq1, hiq2⟩ := clamp_axis gs qi hgs1 hqi0 hqi1
    obtain ⟨hj0, hjle, hjq1, hjq2⟩ := clamp_axis gs qj hgs1 hqj0 hqj1
    set iZ := max 0 (min ((gs : ℤ) - 1) (pyint qi)) with hiZdef
    set jZ := max 0 (min ((gs : ℤ) - 1) (pyint qj)) with hjZdef
    have hiN : iZ.toNat + 1 ≤ gs := by omega
    have hjN : jZ.toNat + 1 ≤ gs := by omega
    have hminI : min (iZ.toNat + 1) gs = iZ.toNat + 1 := min_eq_left hiN
    have hminJ : min (jZ.toNat + 1) gs = jZ.toNat + 1 := min_eq_left hjN
    have hcastI : ((iZ.toNat : ℕ) : ℚ) = ((iZ : ℤ) : ℚ) := by
      have h := Int.toNat_of_nonneg hi0
      exact_mod_cast congrArg (fun z : ℤ => ((z : ℤ) : ℚ)) h
    have hcastJ : ((jZ.toNat : ℕ) : ℚ) = ((jZ : ℤ) : ℚ) := by
      have h := Int.toNat_of_nonneg hj0
      exact_mod_cast congrArg (fun z : ℤ => ((z : ℤ) : ℚ)) h
    refine ⟨iZ.toNat, jZ.toNat, qi - ((iZ : ℤ) : ℚ), qj - ((jZ : ℤ) : ℚ),
      hiN, hjN, by linarith, by linarith, by linarith, by linarith, ?_⟩
    rw [hminI, hminJ]

theorem c2_bilinear_query_witness :
    (gEx2.get_elevation_at_xy
      (gEx2.lat_lon_to_meters
        (gEx2.min_lat + ((3 : ℕ) : ℚ) * ((gEx2.max_lat - gEx2.min_lat) / ((20 : ℕ) : ℚ)))
        (gEx2.min_lon + ((5 : ℕ) : ℚ) * ((gEx2.max_lon - gEx2.min_lon) / ((20 : ℕ) : ℚ)))).1
      (gEx2.lat_lon_to_meters
        (gEx2.min_lat + ((3 : ℕ) : ℚ) * ((gEx2.max_lat - gEx2.min_lat) / ((20 : ℕ) : ℚ)))
        (gEx2.min_lon + ((5 : ℕ) : ℚ) * ((gEx2.max_lon - gEx2.min_lon) / ((20 : ℕ) : ℚ)))).2 =
      edTen 3 5 * (1/10)) ∧
    (∃ i j : ℕ, ∃ wa wb : ℚ,
      i + 1 ≤ 20 ∧ j + 1 ≤ 20 ∧ 0 ≤ wa ∧ wa ≤ 1 ∧ 0 ≤ wb ∧ wb ≤ 1 ∧
      gEx2.get_elevation_at_xy 1 2 =
        ((edTen i j * (1 - wb) + edTen i (j + 1) * wb) * (1 - wa) +
          (edTen (i + 1) j * (1 - wb) + edTen (i + 1) (j + 1) * wb) * wa) * (1/10)) :=
  ⟨(c2_bilinear_query gEx2 edTen 20 rfl rfl (by norm_num [gEx2]) (by norm_num [gEx2])
      (by norm_num [gEx2]) (by norm_num)).1 3 5 (by norm_num) (by norm_num),
   (c2_bilinear_query gEx2 edTen 20 rfl rfl (by norm_num [gEx2]) (by norm_num [gEx2])
      (by norm_num [gEx2]) (by norm_num)).2 1 2⟩
